import Mathlib

/-!
Verification development for the course-admission dashboard (src/app.py).

The dashboard loads two tables (historical course-admission records and
2025 predictions), filters them by user selections, and renders metrics,
line charts and summary tables.  This file gives a shallow embedding of
the data-selection and chart-assembly logic of src/app.py and proves the
specified properties about it.  Tables are lists of records, pandas
filtering is List.filter, sort_values is a comparison sort, .iloc on an
empty frame is modelled as an Except error (pandas raises IndexError),
and numpy rounding is round-half-to-even on exact rationals.
-/

/-- One row of cleaned_data.csv (historical record, one per course-year). -/
structure HistRow where
  course_id : String
  curso : String
  nome_universidade : String
  nome_faculdade : String
  ano : Int
  vagas_iniciais : Int
  colocados : Int
  taxa_ocupacao : ℚ
  nota_ultimo_colocado : ℚ
  vagas_sobrantes : Int
deriving Repr, DecidableEq, Inhabited

/-- One row of predictions_2025.csv (at most one per course). -/
structure PredRow where
  course_id : String
  colocados_previsto : ℚ
  nota_ultimo_colocado_prevista : ℚ
deriving Repr, DecidableEq

/-- Ordering used by sort_values of ano (app.py line 238). -/
def anoLe (a b : HistRow) : Prop := a.ano ≤ b.ano

instance : DecidableRel anoLe := fun a b => inferInstanceAs (Decidable (a.ano ≤ b.ano))

instance : IsTotal HistRow anoLe := ⟨fun a b => le_total a.ano b.ano⟩

instance : IsTrans HistRow anoLe := ⟨fun _ _ _ h1 h2 => le_trans h1 h2⟩

/-- Rounding used by numpy round / Series.round: round half to even. -/
def roundHalfEven (q : ℚ) : ℤ :=
  if q - ⌊q⌋ < 1/2 then ⌊q⌋
  else if 1/2 < q - ⌊q⌋ then ⌊q⌋ + 1
  else if 2 ∣ ⌊q⌋ then ⌊q⌋ else ⌊q⌋ + 1

/-- Round half up, the alternative rounding rule the code does NOT use;
kept only to compare against roundHalfEven. -/
def roundHalfUp (q : ℚ) : ℤ := ⌊q + 1/2⌋

/-- Series.round(1): round to one decimal place, half to even. -/
def round1 (q : ℚ) : ℚ := (roundHalfEven (q * 10) : ℚ) / 10

/-- Python int() on a nonnegative-or-negative rational: truncation toward zero. -/
def pyInt (q : ℚ) : ℤ := if q < 0 then -⌊-q⌋ else ⌊q⌋

/-- Occupancy display: (x * 100).round(0).astype(int).astype(str) + a percent
sign (app.py lines 215 and 412). -/
def fmtPercent (q : ℚ) : String := toString (roundHalfEven (q * 100)) ++ "%"

/-- Row filter and sort of create_course_evolution_view (app.py 234-238):
rows of the course inside the inclusive year range, sorted ascending by ano. -/
def filterCourseYears (df : List HistRow) (selected_course : String) (y1 y2 : Int) :
    List HistRow :=
  List.insertionSort anoLe
    (df.filter (fun r =>
      r.course_id == selected_course && decide (y1 ≤ r.ano) && decide (r.ano ≤ y2)))

/-- The local values computed by create_metric_columns (app.py 108-136). -/
structure Metrics where
  avg_occupancy : ℚ
  avg_grade : ℚ
  recent_year : Int
  last_grade : ℚ
  last_placed : Int
  forecast_grade : Option ℚ
  forecast_placed : Option ℤ
deriving Repr, DecidableEq

/-- create_metric_columns (app.py 108-136).  course_data.iloc[-1] raises on an
empty frame, modelled by returning none; callers only pass nonempty frames. -/
def create_metric_columns (course_data : List HistRow) (predictions : List PredRow)
    (selected_course : String) : Option Metrics :=
  match course_data.getLast? with
  | none => none
  | some most_recent_year =>
    let course_predictions := predictions.filter (fun p => p.course_id == selected_course)
    some
      { avg_occupancy := ((course_data.map (fun r => r.taxa_ocupacao)).sum /
          (course_data.length : ℚ)) * 100
      , avg_grade := (course_data.map (fun r => r.nota_ultimo_colocado)).sum /
          (course_data.length : ℚ)
      , recent_year := most_recent_year.ano
      , last_grade := most_recent_year.nota_ultimo_colocado
      , last_placed := most_recent_year.colocados
      , forecast_grade := course_predictions.head?.map
          (fun p => p.nota_ultimo_colocado_prevista)
      , forecast_placed := course_predictions.head?.map
          (fun p => pyInt p.colocados_previsto) }

/-- One displayed row of the detailed table (app.py 200-221). -/
structure DetailRow where
  ano : Int
  vagas_iniciais : Int
  colocados : Int
  taxa_ocupacao : String
  nota_ultimo_colocado : ℚ
  vagas_sobrantes : Int
deriving Repr, DecidableEq

/-- create_detailed_table (app.py 200-221). -/
def create_detailed_table (course_data : List HistRow) : List DetailRow :=
  course_data.map (fun r =>
    { ano := r.ano
    , vagas_iniciais := r.vagas_iniciais
    , colocados := r.colocados
    , taxa_ocupacao := fmtPercent r.taxa_ocupacao
    , nota_ultimo_colocado := round1 r.nota_ultimo_colocado
    , vagas_sobrantes := r.vagas_sobrantes })

/-- What the single-course tab renders (app.py 223-268). -/
inductive EvolutionOutcome where
  | noData
  | view (metrics : Metrics) (colocados_series : List (Int × Int))
      (nota_series : List (Int × ℚ)) (table : List DetailRow)
deriving Repr, DecidableEq

/-- create_course_evolution_view (app.py 223-268). -/
def create_course_evolution_view (df : List HistRow) (predictions : List PredRow)
    (selected_course : String) (year_range : Int × Int) : Except String EvolutionOutcome :=
  let course_data := filterCourseYears df selected_course year_range.1 year_range.2
  if course_data.isEmpty then .ok .noData
  else
    match create_metric_columns course_data predictions selected_course with
    | none => .error "IndexError: single positional indexer is out-of-bounds"
    | some m =>
      .ok (.view m
        (course_data.map (fun r => (r.ano, r.colocados)))
        (course_data.map (fun r => (r.ano, r.nota_ultimo_colocado)))
        (create_detailed_table course_data))

/-- The metric column plotted by a comparison chart (y_column in app.py 270). -/
inductive Metric where
  | colocados
  | nota_ultimo_colocado
deriving Repr, DecidableEq

/-- Value of the plotted metric on a historical row. -/
def metricVal : Metric → HistRow → ℚ
  | .colocados, r => (r.colocados : ℚ)
  | .nota_ultimo_colocado, r => r.nota_ultimo_colocado

/-- Value of the plotted metric on a prediction row (app.py 323-326). -/
def predictionVal : Metric → PredRow → ℚ
  | .colocados, p => p.colocados_previsto
  | .nota_ultimo_colocado, p => p.nota_ultimo_colocado_prevista

/-- The plotly qualitative Set1 palette used at app.py line 307. -/
def set1Palette : List String :=
  ["rgb(228,26,28)", "rgb(55,126,184)", "rgb(77,175,74)", "rgb(152,78,163)",
   "rgb(255,127,0)", "rgb(255,255,51)", "rgb(166,86,40)", "rgb(247,129,191)",
   "rgb(153,153,153)"]

/-- One scatter trace added to a comparison figure. -/
structure Trace where
  xs : List Int
  ys : List ℚ
  name : String
  is_forecast : Bool
  color : String
deriving Repr, DecidableEq

/-- Body of the per-course loop of create_comparison_chart (app.py 298-346).
iloc[0] on an empty frame raises IndexError, modelled as .error.  The color
index is len(fig.data) mod palette size at the moment the historical trace is
added; the add_vline call adds a layout shape, not a data trace. -/
def addCourseTraces (historical_data : List HistRow) (predictions : List PredRow)
    (y_column : Metric) (traces : List Trace) (course : String) :
    Except String (List Trace) :=
  let course_data := historical_data.filter (fun r => r.course_id == course)
  match course_data.head? with
  | none => .error "IndexError: single positional indexer is out-of-bounds"
  | some first_row =>
    match (course_data.map (fun r => r.ano)).max? with
    | none => .error "max of empty sequence"
    | some last_year =>
      match (course_data.filter (fun r => r.ano == last_year)).head? with
      | none => .error "IndexError: single positional indexer is out-of-bounds"
      | some last_row =>
        let course_name := first_row.curso
        let last_value := metricVal y_column last_row
        let line_color := set1Palette.getD (traces.length % set1Palette.length) ""
        let hist_trace : Trace :=
          { xs := course_data.map (fun r => r.ano)
          , ys := course_data.map (metricVal y_column)
          , name := course_name
          , is_forecast := false
          , color := line_color }
        match (predictions.filter (fun p => p.course_id == course)).head? with
        | none => .ok (traces ++ [hist_trace])
        | some course_pred =>
          let forecast_trace : Trace :=
            { xs := [last_year, 2025]
            , ys := [last_value, predictionVal y_column course_pred]
            , name := course_name ++ " (Previsão)"
            , is_forecast := true
            , color := line_color }
          .ok (traces ++ [hist_trace, forecast_trace])

/-- create_comparison_chart (app.py 270-369): the list of data traces of the
figure, in draw order. -/
def create_comparison_chart (historical_data : List HistRow) (predictions : List PredRow)
    (selected_courses : List String) (y_column : Metric) : Except String (List Trace) :=
  selected_courses.foldlM (addCourseTraces historical_data predictions y_column) []

/-- A cell of the comparison summary table: the columns hold numbers in
historical rows and literal strings in forecast rows (pandas object dtype). -/
inductive Cell where
  | num : ℚ → Cell
  | str : String → Cell
deriving Repr, DecidableEq

/-- One row of the comparison summary table (app.py 400-414). -/
structure SummaryRow where
  curso : String
  ano : Int
  ocupacao : Cell
  nota_minima : ℚ
  vagas_restantes : Cell
deriving Repr, DecidableEq

/-- The forecast-year branch of create_comparison_summary (app.py 394-406):
one row per selected course that has a prediction, in selection order; a
course with no prediction contributes nothing.  df[course_id == course].iloc[0]
raises IndexError when the course has no historical row, modelled as .error. -/
def forecastRows (df : List HistRow) (predictions : List PredRow) :
    List String → Except String (List SummaryRow)
  | [] => .ok []
  | course :: rest =>
    match (predictions.filter (fun p => p.course_id == course)).head? with
    | none => forecastRows df predictions rest
    | some course_pred =>
      match (df.filter (fun r => r.course_id == course)).head? with
      | none => .error "IndexError: single positional indexer is out-of-bounds"
      | some course_data =>
        (forecastRows df predictions rest).map (fun rest_rows =>
          { curso := course_data.curso
          , ano := 2025
          , ocupacao := .str "Previsão"
          , nota_minima := round1 course_pred.nota_ultimo_colocado_prevista
          , vagas_restantes := .str "Previsão" } :: rest_rows)

/-- One iteration of the year loop of create_comparison_summary (app.py
386-416): the block of rows emitted for one requested year. -/
def yearSummary (df : List HistRow) (predictions : List PredRow)
    (selected_courses : List String) (selected_year : Int) :
    Except String (List SummaryRow) :=
  if selected_year == 2025 then forecastRows df predictions selected_courses
  else
    .ok ((df.filter (fun r =>
        selected_courses.contains r.course_id && r.ano == selected_year)).map
      (fun r =>
        { curso := r.curso
        , ano := r.ano
        , ocupacao := .str (fmtPercent r.taxa_ocupacao)
        , nota_minima := round1 r.nota_ultimo_colocado
        , vagas_restantes := .num (r.vagas_sobrantes : ℚ) }))

/-- The summary_dataframes list built by the year loop (app.py 384-416). -/
def summaryBlocks (df : List HistRow) (predictions : List PredRow)
    (selected_courses : List String) : List Int → Except String (List (List SummaryRow))
  | [] => .ok []
  | y :: rest =>
    (yearSummary df predictions selected_courses y).bind (fun b =>
      (summaryBlocks df predictions selected_courses rest).map (fun bs => b :: bs))

/-- create_comparison_summary (app.py 371-421): concatenation of the per-year
blocks; None when the year list is empty. -/
def create_comparison_summary (df : List HistRow) (predictions : List PredRow)
    (selected_courses : List String) (selected_years : List Int) :
    Except String (Option (List SummaryRow)) :=
  (summaryBlocks df predictions selected_courses selected_years).map (fun blocks =>
    if blocks.isEmpty then none else some blocks.flatten)

/-- What the comparison tab renders (app.py 423-522). -/
inductive ComparisonOutcome where
  | noData
  | promptYears
  | promptSelect
  | view (fig_evolution fig_grades : List Trace)
      (final_summary : Option (List SummaryRow))
deriving Repr, DecidableEq

/-- create_course_comparison_view (app.py 423-522).  selected_years stands for
the multiselect choice; an empty choice renders an informational prompt. -/
def create_course_comparison_view (df : List HistRow) (selected_courses : List String)
    (predictions : List PredRow) (selected_years : List Int) :
    Except String ComparisonOutcome :=
  let historical_data := df.filter (fun r => selected_courses.contains r.course_id)
  if historical_data.isEmpty then .ok .noData
  else
    (create_comparison_chart historical_data predictions selected_courses .colocados).bind
      (fun fig_evolution =>
        (create_comparison_chart historical_data predictions selected_courses
            .nota_ultimo_colocado).bind (fun fig_grades =>
          if selected_years.isEmpty then .ok .promptYears
          else
            (create_comparison_summary df predictions selected_courses
                selected_years).map (fun final_summary =>
              .view fig_evolution fig_grades final_summary)))

/-- Appending a course to the comparison list when absent (app.py 601-605). -/
def sel_add (selected : List String) (course : String) : List String :=
  if course ∈ selected then selected else selected ++ [course]

/-- Removing a course from the comparison list (app.py 635-637): Python
list.remove deletes the first matching entry. -/
def sel_remove (selected : List String) (course : String) : List String :=
  selected.erase course

/-- Clearing the comparison list (app.py 640-642). -/
def sel_clear (_ : List String) : List String := []

/-- One user interaction with the selection-set manager. -/
inductive SelOp where
  | add (course : String)
  | remove (course : String)
  | clear
deriving Repr, DecidableEq

/-- Dispatch of one selection operation. -/
def applySelOp (selected : List String) : SelOp → List String
  | .add c => sel_add selected c
  | .remove c => sel_remove selected c
  | .clear => sel_clear selected

/-- A whole interaction sequence applied to the selection list. -/
def applySelOps (selected : List String) (ops : List SelOp) : List String :=
  ops.foldl applySelOp selected

/-- pandas Series.unique: distinct values, first occurrence kept, in order. -/
def pandasUnique (l : List String) : List String :=
  l.foldl (fun acc x => if x ∈ acc then acc else acc ++ [x]) []

/-- Session-state initialization of the comparison list (app.py 592-599). -/
def initSelection (df : List HistRow) : List String :=
  pandasUnique ((df.filter (fun r =>
    r.nome_universidade == "Universidade de Lisboa" &&
    r.nome_faculdade == "Instituto Superior de Economia e Gestão" &&
    (r.curso == "Economia" || r.curso == "Gestão"))).map (fun r => r.course_id))

/-- The two input files as the loader sees them: none models a missing file. -/
structure FileSystem where
  cleaned_data : Option (List HistRow)
  predictions_2025 : Option (List PredRow)

/-- The user-facing message of app.py line 105. -/
def missingFileMsg : String :=
  "❌ Arquivo cleaned_data.csv ou predictions_2025.csv não encontrado. Por favor, faça upload dos seus conjuntos de dados."

/-- load_data (app.py 92-106): both files read inside one try; a missing file
raises FileNotFoundError, caught and converted to (None, None) plus one
user-visible error message. -/
def load_data (fs : FileSystem) : Option (List HistRow × List PredRow) × List String :=
  match fs.cleaned_data with
  | none => (none, [missingFileMsg])
  | some df =>
    match fs.predictions_2025 with
    | none => (none, [missingFileMsg])
    | some predictions => (some (df, predictions), [])

/-- The selections a user has made in the widgets during one rerun. -/
structure Interaction where
  evolution_course : String
  comparison_courses : List String
  comparison_years : List Int
deriving Repr, DecidableEq

/-- What one full rerun of main renders (app.py 646-683). -/
inductive MainOutcome where
  | missingFile (msg : String)
  | rendered (tab1 : EvolutionOutcome) (tab2 : ComparisonOutcome)
deriving Repr, DecidableEq

/-- main (app.py 646-683): on a failed load it renders the loader error and
returns before any tab is built; otherwise tab1 shows the evolution view over
the full year range of the table and tab2 the comparison view (or a prompt
when the comparison list is empty). -/
def app_main (fs : FileSystem) (ui : Interaction) : Except String MainOutcome :=
  match load_data fs with
  | (none, msgs) => .ok (.missingFile (msgs.getD 0 ""))
  | (some (df, predictions), _) =>
    match (df.map (fun r => r.ano)).min?, (df.map (fun r => r.ano)).max? with
    | some y1, some y2 =>
      (create_course_evolution_view df predictions ui.evolution_course (y1, y2)).bind
        (fun tab1 =>
          (if ui.comparison_courses.isEmpty then .ok ComparisonOutcome.promptSelect
           else create_course_comparison_view df ui.comparison_courses predictions
             ui.comparison_years).map (fun tab2 => .rendered tab1 tab2))
    | _, _ => .error "ValueError: cannot convert float NaN to integer"

/-- Historical table of the spec §8 example: course C1, years 2020-2024,
colocados 10,12,11,13,14 and occupancy .5,.6,.55,.65,.7. -/
def exampleDf : List HistRow :=
  [ { course_id := "C1", curso := "Curso Um", nome_universidade := "U"
    , nome_faculdade := "F", ano := 2020, vagas_iniciais := 20, colocados := 10
    , taxa_ocupacao := 1/2, nota_ultimo_colocado := 10, vagas_sobrantes := 10 }
  , { course_id := "C1", curso := "Curso Um", nome_universidade := "U"
    , nome_faculdade := "F", ano := 2021, vagas_iniciais := 20, colocados := 12
    , taxa_ocupacao := 6/10, nota_ultimo_colocado := 11, vagas_sobrantes := 8 }
  , { course_id := "C1", curso := "Curso Um", nome_universidade := "U"
    , nome_faculdade := "F", ano := 2022, vagas_iniciais := 20, colocados := 11
    , taxa_ocupacao := 55/100, nota_ultimo_colocado := 12, vagas_sobrantes := 9 }
  , { course_id := "C1", curso := "Curso Um", nome_universidade := "U"
    , nome_faculdade := "F", ano := 2023, vagas_iniciais := 20, colocados := 13
    , taxa_ocupacao := 65/100, nota_ultimo_colocado := 13, vagas_sobrantes := 7 }
  , { course_id := "C1", curso := "Curso Um", nome_universidade := "U"
    , nome_faculdade := "F", ano := 2024, vagas_iniciais := 20, colocados := 14
    , taxa_ocupacao := 7/10, nota_ultimo_colocado := 14, vagas_sobrantes := 6 } ]

/-- Prediction table of the spec §8 example: C1 predicted 15 placed, grade 14.2. -/
def examplePreds : List PredRow :=
  [ { course_id := "C1", colocados_previsto := 15
    , nota_ultimo_colocado_prevista := 142/10 } ]

/-- The data traces of the §8 example comparison chart, used as a witness. -/
def exampleTraces : List Trace :=
  ((create_comparison_chart exampleDf examplePreds ["C1"] Metric.colocados).toOption).getD []

/-- A table holding one row for course A only; course B is absent. -/
def soloDf : List HistRow :=
  [ { course_id := "A", curso := "Curso A", nome_universidade := "U"
    , nome_faculdade := "F", ano := 2024, vagas_iniciais := 10, colocados := 8
    , taxa_ocupacao := 8/10, nota_ultimo_colocado := 12, vagas_sobrantes := 2 } ]

/-- Six courses with one historical row each, for the color-collision run. -/
def paletteDf : List HistRow :=
  [ { course_id := "A", curso := "Curso A", nome_universidade := "U"
    , nome_faculdade := "F", ano := 2024, vagas_iniciais := 10, colocados := 8
    , taxa_ocupacao := 8/10, nota_ultimo_colocado := 12, vagas_sobrantes := 2 }
  , { course_id := "B", curso := "Curso B", nome_universidade := "U"
    , nome_faculdade := "F", ano := 2024, vagas_iniciais := 10, colocados := 8
    , taxa_ocupacao := 8/10, nota_ultimo_colocado := 12, vagas_sobrantes := 2 }
  , { course_id := "C", curso := "Curso C", nome_universidade := "U"
    , nome_faculdade := "F", ano := 2024, vagas_iniciais := 10, colocados := 8
    , taxa_ocupacao := 8/10, nota_ultimo_colocado := 12, vagas_sobrantes := 2 }
  , { course_id := "D", curso := "Curso D", nome_universidade := "U"
    , nome_faculdade := "F", ano := 2024, vagas_iniciais := 10, colocados := 8
    , taxa_ocupacao := 8/10, nota_ultimo_colocado := 12, vagas_sobrantes := 2 }
  , { course_id := "E", curso := "Curso E", nome_universidade := "U"
    , nome_faculdade := "F", ano := 2024, vagas_iniciais := 10, colocados := 8
    , taxa_ocupacao := 8/10, nota_ultimo_colocado := 12, vagas_sobrantes := 2 }
  , { course_id := "F", curso := "Curso F", nome_universidade := "U"
    , nome_faculdade := "F", ano := 2024, vagas_iniciais := 10, colocados := 8
    , taxa_ocupacao := 8/10, nota_ultimo_colocado := 12, vagas_sobrantes := 2 } ]

/-- Predictions for the first four of the six palette-example courses. -/
def palettePreds : List PredRow :=
  [ { course_id := "A", colocados_previsto := 9, nota_ultimo_colocado_prevista := 13 }
  , { course_id := "B", colocados_previsto := 9, nota_ultimo_colocado_prevista := 13 }
  , { course_id := "C", colocados_previsto := 9, nota_ultimo_colocado_prevista := 13 }
  , { course_id := "D", colocados_previsto := 9, nota_ultimo_colocado_prevista := 13 } ]

/-- The selection list of the color-collision run. -/
def paletteCourses : List String := ["A", "B", "C", "D", "E", "F"]

/-- Color discipline of the traces of one comparison chart: a non-forecast
trace at draw position i wears the palette color of index i mod palette size,
and a forecast trace wears the color of the trace drawn right before it, its
course's historical line, whose name it extends. -/
def ChartColorSpec (ts : List Trace) : Prop :=
  ∀ i t, ts[i]? = some t →
    (t.is_forecast = false →
      t.color = set1Palette.getD (i % set1Palette.length) "") ∧
    (t.is_forecast = true → ∃ t0, ts[i - 1]? = some t0 ∧ t0.is_forecast = false ∧
      t0.color = t.color ∧ t.name = t0.name ++ " (Previsão)" ∧ 0 < i)

/-- Claim C2: the single-course view builder operates on exactly the rows whose
course identifier equals the selected one and whose year lies in the inclusive
range, sorted ascending by year, and when that filtered set is empty it renders
the non-fatal no-data notice and nothing else. -/
theorem course_filter_spec (df : List HistRow) (predictions : List PredRow)
    (c : String) (y1 y2 : Int) :
    (∀ r, r ∈ filterCourseYears df c y1 y2 ↔
      (r ∈ df ∧ r.course_id = c ∧ y1 ≤ r.ano ∧ r.ano ≤ y2)) ∧
    (filterCourseYears df c y1 y2).Sorted anoLe ∧
    (filterCourseYears df c y1 y2 = [] →
      create_course_evolution_view df predictions c (y1, y2) = .ok .noData) := by
  refine ⟨fun r => ?_, List.sorted_insertionSort _ _, fun h => ?_⟩
  · rw [filterCourseYears, (List.perm_insertionSort _ _).mem_iff, List.mem_filter]
    simp [and_assoc]
  · simp only [create_course_evolution_view, h]
    rfl

/-- Concrete instance of course_filter_spec: the 2020 row of the example table
is kept by the filter, and an empty table yields the no-data outcome. -/
theorem course_filter_spec_witness :
    exampleDf.head! ∈ filterCourseYears exampleDf "C1" 2020 2024 ∧
    create_course_evolution_view [] [] "C1" (2020, 2024) = .ok .noData := by
  constructor
  · exact ((course_filter_spec exampleDf examplePreds "C1" 2020 2024).1 _).mpr
      ⟨by simp [exampleDf], rfl, by decide, by decide⟩
  · exact (course_filter_spec [] [] "C1" 2020 2024).2.2 rfl

/-- Claim C7: when either input file is absent the dataset loader returns
(None, None) together with one user-visible error message, and main then stops:
the whole run renders only that message, no tab is built. -/
theorem load_data_missing_abort (fs : FileSystem)
    (h : fs.cleaned_data = none ∨ fs.predictions_2025 = none) :
    load_data fs = (none, [missingFileMsg]) ∧
    ∀ ui, app_main fs ui = .ok (.missingFile missingFileMsg) := by
  have hl : load_data fs = (none, [missingFileMsg]) := by
    rcases h with h | h
    · simp [load_data, h]
    · cases hc : fs.cleaned_data <;> simp [load_data, hc, h]
  refine ⟨hl, fun ui => ?_⟩
  simp [app_main, hl]

/-- Concrete instance of load_data_missing_abort: missing cleaned_data.csv. -/
theorem load_data_missing_abort_witness :
    load_data ⟨none, some []⟩ = (none, [missingFileMsg]) ∧
    app_main ⟨none, some []⟩ ⟨"C1", [], []⟩ = .ok (.missingFile missingFileMsg) :=
  ⟨(load_data_missing_abort ⟨none, some []⟩ (Or.inl rfl)).1,
   (load_data_missing_abort ⟨none, some []⟩ (Or.inl rfl)).2 ⟨"C1", [], []⟩⟩

/-- The accumulator step of pandasUnique keeps the list duplicate-free. -/
theorem pandasUnique_go_nodup (l : List String) :
    ∀ acc : List String, acc.Nodup →
      (l.foldl (fun acc x => if x ∈ acc then acc else acc ++ [x]) acc).Nodup := by
  induction l with
  | nil => exact fun acc h => h
  | cons x xs ih =>
    intro acc h
    by_cases hx : x ∈ acc
    · simpa [hx] using ih acc h
    · have hstep : (acc ++ [x]).Nodup := by
        simp [List.nodup_append, h, hx]
      simpa [hx] using ih _ hstep

/-- Each selection-set operation preserves freedom from duplicates. -/
theorem applySelOp_nodup (l : List String) (op : SelOp) (h : l.Nodup) :
    (applySelOp l op).Nodup := by
  cases op with
  | add c =>
    by_cases hc : c ∈ l
    · simpa [applySelOp, sel_add, hc] using h
    · simp [applySelOp, sel_add, hc, List.nodup_append, h]
  | remove c => exact h.erase c
  | clear => simp [applySelOp, sel_clear]

/-- Freedom from duplicates is preserved by any operation sequence. -/
theorem applySelOps_nodup (ops : List SelOp) :
    ∀ init : List String, init.Nodup → (applySelOps init ops).Nodup := by
  induction ops with
  | nil => exact fun _ h => h
  | cons op rest ih => exact fun init h => ih _ (applySelOp_nodup init op h)

/-- Claim C4: starting from the initialized selection set, any sequence of add,
remove and clear operations leaves a duplicate-free list; add is a no-op on a
present identifier and otherwise appends at the end, remove deletes exactly one
matching entry preserving the relative order of the rest, and clear empties the
list; the session-initialization value itself is duplicate-free. -/
theorem selection_set_invariant (df : List HistRow) (init : List String)
    (ops : List SelOp) (hinit : init.Nodup) :
    (initSelection df).Nodup ∧
    (applySelOps init ops).Nodup ∧
    (∀ (l : List String) c, c ∈ l → sel_add l c = l) ∧
    (∀ (l : List String) c, c ∉ l → sel_add l c = l ++ [c]) ∧
    (∀ (l : List String) c, (sel_remove l c).Sublist l ∧
      (l.Nodup → c ∉ sel_remove l c) ∧
      (c ∈ l → (sel_remove l c).length + 1 = l.length)) ∧
    (∀ l : List String, sel_clear l = []) := by
  refine ⟨pandasUnique_go_nodup _ _ List.nodup_nil, applySelOps_nodup ops init hinit,
    fun l c hc => ?_, fun l c hc => ?_, fun l c => ⟨List.erase_sublist c l,
      fun hn hmem => ((hn.mem_erase_iff).1 hmem).1 rfl, fun hc => ?_⟩, fun _ => rfl⟩
  · simp [sel_add, hc]
  · simp [sel_add, hc]
  · rw [sel_remove, List.length_erase_of_mem hc]
    have := List.length_pos.mpr (List.ne_nil_of_mem hc)
    omega

/-- Concrete instance of selection_set_invariant: re-adding a present course,
adding a new one and removing another leaves a duplicate-free list. -/
theorem selection_set_invariant_witness :
    (["E1", "G1"] : List String).Nodup ∧
    (applySelOps ["E1", "G1"]
      [SelOp.add "E1", SelOp.add "C3", SelOp.remove "G1"]).Nodup := by
  refine ⟨by decide, ?_⟩
  exact (selection_set_invariant [] ["E1", "G1"]
    [SelOp.add "E1", SelOp.add "C3", SelOp.remove "G1"] (by decide)).2.1

/-- The first element delivered by head? is a member of the list. -/
theorem mem_of_head_some {α : Type} {l : List α} {a : α} (h : l.head? = some a) :
    a ∈ l := by
  cases l with
  | nil => cases h
  | cons x xs =>
    injection h with h
    subst h
    exact List.mem_cons_self x xs

/-- Splitting the year loop of the comparison summary: the per-year blocks of a
concatenated year list are the blocks of the parts, in order. -/
theorem summaryBlocks_append (df : List HistRow) (predictions : List PredRow)
    (selected_courses : List String) (ys1 ys2 : List Int) :
    ∀ bs, summaryBlocks df predictions selected_courses (ys1 ++ ys2) = .ok bs →
    ∃ b1 b2, summaryBlocks df predictions selected_courses ys1 = .ok b1 ∧
      summaryBlocks df predictions selected_courses ys2 = .ok b2 ∧ bs = b1 ++ b2 := by
  induction ys1 with
  | nil => exact fun bs h => ⟨[], bs, rfl, h, rfl⟩
  | cons y rest ih =>
    intro bs h
    rw [List.cons_append] at h
    cases hy : yearSummary df predictions selected_courses y with
    | error e => rw [summaryBlocks, hy] at h; cases h
    | ok b =>
      rw [summaryBlocks, hy] at h
      cases hrest : summaryBlocks df predictions selected_courses (rest ++ ys2) with
      | error e => rw [hrest] at h; cases h
      | ok bs2 =>
        rw [hrest] at h
        injection h with h
        obtain ⟨b1, b2, h1, h2, h3⟩ := ih bs2 hrest
        refine ⟨b :: b1, b2, ?_, h2, ?_⟩
        · rw [summaryBlocks, hy, h1]
          rfl
        · rw [← h, h3, List.cons_append]

/-- Claim C8: the comparison summary processes the requested years in the
caller-given order and never re-sorts them: for every split of the year list,
the emitted rows are the concatenation of the rows of the first part followed
by the rows of the second, each per-year block keeping its emission order. -/
theorem summary_year_order (df : List HistRow) (predictions : List PredRow)
    (selected_courses : List String) (ys1 ys2 : List Int) (rows : List SummaryRow)
    (h : create_comparison_summary df predictions selected_courses (ys1 ++ ys2) =
      .ok (some rows)) :
    ∃ b1 b2, summaryBlocks df predictions selected_courses ys1 = .ok b1 ∧
      summaryBlocks df predictions selected_courses ys2 = .ok b2 ∧
      rows = b1.flatten ++ b2.flatten := by
  rw [create_comparison_summary] at h
  cases hbs : summaryBlocks df predictions selected_courses (ys1 ++ ys2) with
  | error e => rw [hbs] at h; cases h
  | ok bs =>
    rw [hbs] at h
    obtain ⟨b1, b2, h1, h2, h3⟩ := summaryBlocks_append df predictions
      selected_courses ys1 ys2 bs hbs
    by_cases he : bs.isEmpty
    · simp [Except.map, he] at h
    · simp only [Except.map, he, Bool.false_eq_true, if_false] at h
      injection h with h
      injection h with h
      exact ⟨b1, b2, h1, h2, by rw [← h, h3, List.flatten_append]⟩

/-- Concrete instance of summary_year_order: two years with no matching rows
are processed in the given order and yield the empty concatenation. -/
theorem summary_year_order_witness :
    create_comparison_summary exampleDf examplePreds ["C1"] ([1999] ++ [1998]) =
      .ok (some []) ∧
    ∃ b1 b2, summaryBlocks exampleDf examplePreds ["C1"] [1999] = .ok b1 ∧
      summaryBlocks exampleDf examplePreds ["C1"] [1998] = .ok b2 ∧
      ([] : List SummaryRow) = b1.flatten ++ b2.flatten :=
  ⟨rfl, summary_year_order exampleDf examplePreds ["C1"] [1999] [1998] [] rfl⟩

/-- Every row emitted by the forecast-year branch is a 2025 row carrying the
literal placeholder strings and a predicted grade rounded to one decimal. -/
theorem forecastRows_fields (df : List HistRow) (predictions : List PredRow) :
    ∀ (courses : List String) rs, forecastRows df predictions courses = .ok rs →
      ∀ row ∈ rs, row.ano = 2025 ∧ row.ocupacao = .str "Previsão" ∧
        row.vagas_restantes = .str "Previsão" ∧
        ∃ p ∈ predictions, row.nota_minima = round1 p.nota_ultimo_colocado_prevista := by
  intro courses
  induction courses with
  | nil =>
    intro rs h row hrow
    injection h with h
    subst h
    cases hrow
  | cons course rest ih =>
    intro rs h row hrow
    cases hp : (predictions.filter (fun p => p.course_id == course)).head? with
    | none =>
      rw [forecastRows, hp] at h
      exact ih rs h row hrow
    | some course_pred =>
      rw [forecastRows, hp] at h
      cases hd : (df.filter (fun r => r.course_id == course)).head? with
      | none =>
        rw [hd] at h
        cases h
      | some course_data =>
        rw [hd] at h
        cases hrest : forecastRows df predictions rest with
        | error e =>
          rw [hrest] at h
          cases h
        | ok rest_rows =>
          rw [hrest] at h
          simp only [Except.map] at h
          injection h with h
          subst h
          rcases List.mem_cons.mp hrow with hrow | hrow
          · subst hrow
            exact ⟨rfl, rfl, rfl, course_pred,
              List.mem_of_mem_filter (mem_of_head_some hp), rfl⟩
          · exact ih rest_rows hrest row hrow

/-- The forecast-year branch emits exactly one row per selected course having a
prediction; a course with no prediction record contributes no row at all. -/
theorem forecastRows_count (df : List HistRow) (predictions : List PredRow) :
    ∀ (courses : List String) rs, forecastRows df predictions courses = .ok rs →
      rs.length = (courses.filter (fun c =>
        !(predictions.filter (fun p => p.course_id == c)).isEmpty)).length := by
  intro courses
  induction courses with
  | nil =>
    intro rs h
    injection h with h
    subst h
    rfl
  | cons course rest ih =>
    intro rs h
    cases hp : (predictions.filter (fun p => p.course_id == course)).head? with
    | none =>
      rw [forecastRows, hp] at h
      have hempty : (predictions.filter (fun p => p.course_id == course)).isEmpty = true := by
        cases hl : predictions.filter (fun p => p.course_id == course) with
        | nil => rfl
        | cons a l =>
          rw [hl] at hp
          cases hp
      rw [List.filter_cons, hempty]
      simpa using ih rs h
    | some course_pred =>
      rw [forecastRows, hp] at h
      cases hd : (df.filter (fun r => r.course_id == course)).head? with
      | none =>
        rw [hd] at h
        cases h
      | some course_data =>
        rw [hd] at h
        cases hrest : forecastRows df predictions rest with
        | error e =>
          rw [hrest] at h
          cases h
        | ok rest_rows =>
          rw [hrest] at h
          simp only [Except.map] at h
          injection h with h
          subst h
          have hne : (predictions.filter (fun p => p.course_id == course)).isEmpty = false := by
            cases hl : predictions.filter (fun p => p.course_id == course) with
            | nil =>
              rw [hl] at hp
              cases hp
            | cons a l => rfl
          rw [List.filter_cons, hne]
          simpa using ih rest_rows hrest

/-- Each block produced by the year loop comes from one yearSummary call. -/
theorem summaryBlocks_mem (df : List HistRow) (predictions : List PredRow)
    (selected_courses : List String) :
    ∀ (years : List Int) bs,
      summaryBlocks df predictions selected_courses years = .ok bs →
      ∀ b ∈ bs, ∃ y, yearSummary df predictions selected_courses y = .ok b := by
  intro years
  induction years with
  | nil =>
    intro bs h b hb
    injection h with h
    subst h
    cases hb
  | cons y rest ih =>
    intro bs h b hb
    cases hy : yearSummary df predictions selected_courses y with
    | error e =>
      rw [summaryBlocks, hy] at h
      cases h
    | ok b0 =>
      rw [summaryBlocks, hy] at h
      cases hrest : summaryBlocks df predictions selected_courses rest with
      | error e =>
        rw [hrest] at h
        cases h
      | ok bs2 =>
        rw [hrest] at h
        simp only [Except.map] at h
        injection h with h
        subst h
        rcases List.mem_cons.mp hb with hb | hb
        · exact ⟨y, by rw [hy, hb]⟩
        · exact ih bs2 hrest b hb

/-- A 2025 row of any single-year block carries the placeholder fields: the
non-forecast branch only ever emits rows of its own (non-2025) year. -/
theorem yearSummary_2025_rows (df : List HistRow) (predictions : List PredRow)
    (selected_courses : List String) (y : Int) (b : List SummaryRow)
    (h : yearSummary df predictions selected_courses y = .ok b) :
    ∀ row ∈ b, row.ano = 2025 →
      row.ocupacao = .str "Previsão" ∧ row.vagas_restantes = .str "Previsão" ∧
      ∃ p ∈ predictions, row.nota_minima = round1 p.nota_ultimo_colocado_prevista := by
  intro row hrow h2025
  by_cases hy : y = 2025
  · subst hy
    rw [yearSummary] at h
    simp only [beq_self_eq_true, if_true] at h
    have := forecastRows_fields df predictions selected_courses b h row hrow
    exact ⟨this.2.1, this.2.2.1, this.2.2.2⟩
  · rw [yearSummary] at h
    have hyb : (y == 2025) = false := beq_eq_false_iff_ne.mpr hy
    rw [hyb] at h
    simp only [if_false, Bool.false_eq_true] at h
    injection h with h
    subst h
    obtain ⟨r, hr, hrow⟩ := List.mem_map.mp hrow
    have hpred := List.of_mem_filter hr
    have : r.ano = y := by
      have := (Bool.and_eq_true _ _).mp hpred
      exact beq_iff_eq.mp this.2
    rw [← hrow] at h2025
    exact absurd (this.symm.trans h2025) hy

/-- Claim C3: every comparison-summary row for the forecast year 2025 carries
the literal placeholder string in the occupancy and remaining-slots fields,
never a numeric value (even when a historical 2025 row exists, since the 2025
branch ignores the historical rows), and the predicted grade rounded to one
decimal; a selected course with no prediction record contributes no 2025 row. -/
theorem forecast_placeholder_spec (df : List HistRow) (predictions : List PredRow)
    (selected_courses : List String) (selected_years : List Int) :
    (∀ rows, create_comparison_summary df predictions selected_courses selected_years =
        .ok (some rows) →
      ∀ row ∈ rows, row.ano = 2025 →
        row.ocupacao = .str "Previsão" ∧ row.vagas_restantes = .str "Previsão" ∧
        ∃ p ∈ predictions, row.nota_minima = round1 p.nota_ultimo_colocado_prevista) ∧
    (∀ rs, forecastRows df predictions selected_courses = .ok rs →
      rs.length = (selected_courses.filter (fun c =>
        !(predictions.filter (fun p => p.course_id == c)).isEmpty)).length) := by
  refine ⟨?_, forecastRows_count df predictions selected_courses⟩
  intro rows h row hrow h2025
  rw [create_comparison_summary] at h
  cases hbs : summaryBlocks df predictions selected_courses selected_years with
  | error e =>
    rw [hbs] at h
    cases h
  | ok bs =>
    rw [hbs] at h
    simp only [Except.map] at h
    by_cases he : bs.isEmpty
    · rw [if_pos he] at h
      injection h with h
      cases h
    · rw [if_neg he] at h
      injection h with h
      injection h with h
      subst h
      obtain ⟨b, hb, hrowb⟩ := List.mem_flatten.mp hrow
      obtain ⟨y, hy⟩ := summaryBlocks_mem df predictions selected_courses
        selected_years bs hbs b hb
      exact yearSummary_2025_rows df predictions selected_courses y b hy row hrowb h2025

/-- Concrete instance of forecast_placeholder_spec: the §8 example data for the
single year 2025 produces one placeholder row for C1. -/
theorem forecast_placeholder_spec_witness :
    create_comparison_summary exampleDf examplePreds ["C1"] [2025] =
      .ok (some [{ curso := "Curso Um", ano := 2025, ocupacao := Cell.str "Previsão"
                 , nota_minima := round1 (142/10)
                 , vagas_restantes := Cell.str "Previsão" }]) ∧
    ∃ p ∈ examplePreds,
      ({ curso := "Curso Um", ano := 2025, ocupacao := Cell.str "Previsão"
       , nota_minima := round1 (142/10)
       , vagas_restantes := Cell.str "Previsão" } : SummaryRow).nota_minima =
        round1 p.nota_ultimo_colocado_prevista := by
  refine ⟨rfl, ?_⟩
  exact ((forecast_placeholder_spec exampleDf examplePreds ["C1"] [2025]).1 _ rfl _
    (List.mem_cons_self _ _) rfl).2.2

/-- Each loop iteration of the comparison chart only appends traces. -/
theorem addCourseTraces_append (historical_data : List HistRow)
    (predictions : List PredRow) (y_column : Metric) (traces : List Trace)
    (course : String) (ts : List Trace)
    (h : addCourseTraces historical_data predictions y_column traces course = .ok ts) :
    ∃ new, ts = traces ++ new := by
  rw [addCourseTraces] at h
  split at h
  · cases h
  · split at h
    · cases h
    · split at h
      · cases h
      · split at h
        · injection h with h
          exact ⟨_, h.symm⟩
        · injection h with h
          exact ⟨_, h.symm⟩

/-- When the course has a prediction, its loop iteration appends a forecast
trace running from the last historical point to the 2025 prediction. -/
theorem addCourseTraces_forecast (historical_data : List HistRow)
    (predictions : List PredRow) (y_column : Metric) (traces : List Trace)
    (course : String) (ts : List Trace) (course_pred : PredRow) (last_year : Int)
    (last_row : HistRow)
    (h : addCourseTraces historical_data predictions y_column traces course = .ok ts)
    (hp : (predictions.filter (fun p => p.course_id == course)).head? = some course_pred)
    (hmax : ((historical_data.filter (fun r => r.course_id == course)).map
      (fun r => r.ano)).max? = some last_year)
    (hlast : ((historical_data.filter (fun r => r.course_id == course)).filter
      (fun r => r.ano == last_year)).head? = some last_row) :
    ∃ t ∈ ts, t.is_forecast = true ∧ t.xs = [last_year, 2025] ∧
      t.ys = [metricVal y_column last_row, predictionVal y_column course_pred] := by
  rw [addCourseTraces] at h
  split at h
  · cases h
  · split at h
    · rename_i hm2
      rw [hmax] at hm2
      cases hm2
    · rename_i ly hm2
      rw [hmax] at hm2
      injection hm2 with hm2
      subst hm2
      split at h
      · rename_i hl2
        rw [hlast] at hl2
        cases hl2
      · rename_i lr hl2
        rw [hlast] at hl2
        injection hl2 with hl2
        subst hl2
        split at h
        · rename_i hp2
          rw [hp] at hp2
          cases hp2
        · rename_i cp hp2
          rw [hp] at hp2
          injection hp2 with hp2
          subst hp2
          injection h with h
          subst h
          exact ⟨_, List.mem_append_right _
            (List.mem_cons_of_mem _ (List.mem_cons_self _ _)), rfl, rfl, rfl⟩

/-- Traces already drawn stay in the figure through the rest of the loop. -/
theorem chart_fold_mem (historical_data : List HistRow) (predictions : List PredRow)
    (y_column : Metric) :
    ∀ (courses : List String) (acc ts : List Trace),
      List.foldlM (addCourseTraces historical_data predictions y_column) acc courses =
        .ok ts →
      ∀ t ∈ acc, t ∈ ts := by
  intro courses
  induction courses with
  | nil =>
    intro acc ts h t ht
    simp only [List.foldlM_nil] at h
    injection h with h
    subst h
    exact ht
  | cons c rest ih =>
    intro acc ts h t ht
    rw [List.foldlM_cons] at h
    cases hstep : addCourseTraces historical_data predictions y_column acc c with
    | error e =>
      rw [hstep] at h
      cases h
    | ok acc2 =>
      rw [hstep] at h
      obtain ⟨new, rfl⟩ := addCourseTraces_append historical_data predictions y_column
        acc c acc2 hstep
      exact ih _ ts h t (List.mem_append_left _ ht)

/-- Claim C5: for every selected course having a prediction record, the
comparison chart contains a forecast segment whose first point is exactly the
course's last historical point, (max year present, that year's value of the
plotted metric), and whose second point is (2025, predicted metric value). -/
theorem forecast_segment_continuity (historical_data : List HistRow)
    (predictions : List PredRow) (selected_courses : List String) (y_column : Metric)
    (ts : List Trace) (course : String) (course_pred : PredRow) (last_year : Int)
    (last_row : HistRow)
    (hchart : create_comparison_chart historical_data predictions selected_courses
      y_column = .ok ts)
    (hc : course ∈ selected_courses)
    (hp : (predictions.filter (fun p => p.course_id == course)).head? = some course_pred)
    (hmax : ((historical_data.filter (fun r => r.course_id == course)).map
      (fun r => r.ano)).max? = some last_year)
    (hlast : ((historical_data.filter (fun r => r.course_id == course)).filter
      (fun r => r.ano == last_year)).head? = some last_row) :
    ∃ t ∈ ts, t.is_forecast = true ∧ t.xs = [last_year, 2025] ∧
      t.ys = [metricVal y_column last_row, predictionVal y_column course_pred] := by
  rw [create_comparison_chart] at hchart
  revert hchart
  suffices hgen : ∀ (courses : List String) (acc : List Trace),
      List.foldlM (addCourseTraces historical_data predictions y_column) acc courses =
        .ok ts →
      course ∈ courses →
      ∃ t ∈ ts, t.is_forecast = true ∧ t.xs = [last_year, 2025] ∧
        t.ys = [metricVal y_column last_row, predictionVal y_column course_pred] by
    intro hchart
    exact hgen selected_courses [] hchart hc
  intro courses
  induction courses with
  | nil =>
    intro acc _ hmem
    cases hmem
  | cons c2 rest ih =>
    intro acc h hmem
    rw [List.foldlM_cons] at h
    cases hstep : addCourseTraces historical_data predictions y_column acc c2 with
    | error e =>
      rw [hstep] at h
      cases h
    | ok acc2 =>
      rw [hstep] at h
      rcases List.mem_cons.mp hmem with rfl | hmem2
      · obtain ⟨t, htmem, hprops⟩ := addCourseTraces_forecast historical_data
          predictions y_column acc course acc2 course_pred last_year last_row hstep
          hp hmax hlast
        exact ⟨t, chart_fold_mem historical_data predictions y_column rest acc2 ts h
          t htmem, hprops⟩
      · exact ih acc2 h hmem2

/-- Concrete instance of forecast_segment_continuity on the §8 example: the C1
forecast trace starts at the 2024 historical point and ends at the 2025
prediction. -/
theorem forecast_segment_continuity_witness :
    create_comparison_chart exampleDf examplePreds ["C1"] Metric.colocados =
      .ok exampleTraces ∧
    ∃ t ∈ exampleTraces, t.is_forecast = true ∧ t.xs = [(2024 : Int), 2025] ∧
      t.ys = [metricVal Metric.colocados
          { course_id := "C1", curso := "Curso Um", nome_universidade := "U"
          , nome_faculdade := "F", ano := 2024, vagas_iniciais := 20, colocados := 14
          , taxa_ocupacao := 7/10, nota_ultimo_colocado := 14, vagas_sobrantes := 6 },
        predictionVal Metric.colocados
          { course_id := "C1", colocados_previsto := 15
          , nota_ultimo_colocado_prevista := 142/10 }] := by
  refine ⟨rfl, ?_⟩
  exact forecast_segment_continuity exampleDf examplePreds ["C1"] Metric.colocados
    exampleTraces "C1" _ 2024 _ rfl (List.mem_cons_self _ _) rfl rfl rfl

/-- Counterexample to claim C9 as stated: in one chart run with six selected
courses of which the first four have predictions, the color index (which counts
every trace drawn so far, forecast traces included) wraps the nine-color
palette, so the distinct courses Curso A and Curso F wear the same color. -/
theorem comparison_color_collision :
    (create_comparison_chart paletteDf palettePreds paletteCourses
        Metric.colocados).map
      (fun ts => ts.map (fun t => (t.name, t.is_forecast, t.color))) =
    .ok [("Curso A", false, "rgb(228,26,28)"),
         ("Curso A (Previsão)", true, "rgb(228,26,28)"),
         ("Curso B", false, "rgb(77,175,74)"),
         ("Curso B (Previsão)", true, "rgb(77,175,74)"),
         ("Curso C", false, "rgb(255,127,0)"),
         ("Curso C (Previsão)", true, "rgb(255,127,0)"),
         ("Curso D", false, "rgb(166,86,40)"),
         ("Curso D (Previsão)", true, "rgb(166,86,40)"),
         ("Curso E", false, "rgb(153,153,153)"),
         ("Curso F", false, "rgb(228,26,28)")] ∧
    ("Curso A" : String) ≠ "Curso F" :=
  ⟨rfl, by decide⟩

/-- Appending one non-forecast trace wearing the next palette color preserves
the chart color discipline. -/
theorem chartColorSpec_snoc_hist (ts : List Trace) (h0 : Trace)
    (hspec : ChartColorSpec ts) (hf : h0.is_forecast = false)
    (hc : h0.color = set1Palette.getD (ts.length % set1Palette.length) "") :
    ChartColorSpec (ts ++ [h0]) := by
  intro i t hit
  by_cases hi : i < ts.length
  · rw [List.getElem?_append_left hi] at hit
    obtain ⟨s1, s2⟩ := hspec i t hit
    refine ⟨s1, fun hfc => ?_⟩
    obtain ⟨t0, ht0, hfc0, hcol, hname, hpos⟩ := s2 hfc
    refine ⟨t0, ?_, hfc0, hcol, hname, hpos⟩
    rw [List.getElem?_append_left (by omega)]
    exact ht0
  · have hge : ts.length ≤ i := le_of_not_lt hi
    rw [List.getElem?_append_right hge] at hit
    cases hk : i - ts.length with
    | zero =>
      rw [hk] at hit
      injection hit with hit
      subst hit
      have hieq : i = ts.length := by omega
      subst hieq
      exact ⟨fun _ => hc, fun hfc => absurd (hf.symm.trans hfc) (by decide)⟩
    | succ k =>
      rw [hk] at hit
      simp at hit

/-- Appending a course's historical trace and its forecast trace, sharing one
palette color, preserves the chart color discipline. -/
theorem chartColorSpec_snoc_pair (ts : List Trace) (h0 f0 : Trace)
    (hspec : ChartColorSpec ts) (hf : h0.is_forecast = false)
    (hc : h0.color = set1Palette.getD (ts.length % set1Palette.length) "")
    (hff : f0.is_forecast = true) (hfcol : f0.color = h0.color)
    (hfn : f0.name = h0.name ++ " (Previsão)") :
    ChartColorSpec (ts ++ [h0, f0]) := by
  intro i t hit
  by_cases hi : i < ts.length
  · rw [List.getElem?_append_left hi] at hit
    obtain ⟨s1, s2⟩ := hspec i t hit
    refine ⟨s1, fun hfc => ?_⟩
    obtain ⟨t0, ht0, hfc0, hcol, hname, hpos⟩ := s2 hfc
    refine ⟨t0, ?_, hfc0, hcol, hname, hpos⟩
    rw [List.getElem?_append_left (by omega)]
    exact ht0
  · have hge : ts.length ≤ i := le_of_not_lt hi
    rw [List.getElem?_append_right hge] at hit
    cases hk : i - ts.length with
    | zero =>
      rw [hk] at hit
      injection hit with hit
      subst hit
      have hieq : i = ts.length := by omega
      subst hieq
      exact ⟨fun _ => hc, fun hfc => absurd (hf.symm.trans hfc) (by decide)⟩
    | succ k =>
      cases k with
      | zero =>
        rw [hk] at hit
        injection hit with hit
        subst hit
        have hieq : i = ts.length + 1 := by omega
        subst hieq
        refine ⟨fun hcontra => absurd (hff.symm.trans hcontra) (by decide), fun _ => ?_⟩
        refine ⟨h0, ?_, hf, hfcol.symm, hfn, by omega⟩
        rw [List.getElem?_append_right (by omega : ts.length ≤ ts.length + 1 - 1)]
        simp
      | succ k2 =>
        rw [hk] at hit
        simp at hit

/-- Each loop iteration of the chart preserves the color discipline. -/
theorem addCourseTraces_colorSpec (historical_data : List HistRow)
    (predictions : List PredRow) (y_column : Metric) (traces : List Trace)
    (course : String) (ts : List Trace)
    (h : addCourseTraces historical_data predictions y_column traces course = .ok ts)
    (hspec : ChartColorSpec traces) : ChartColorSpec ts := by
  rw [addCourseTraces] at h
  split at h
  · cases h
  · split at h
    · cases h
    · split at h
      · cases h
      · split at h
        · injection h with h
          subst h
          exact chartColorSpec_snoc_hist traces _ hspec rfl rfl
        · injection h with h
          subst h
          exact chartColorSpec_snoc_pair traces _ _ hspec rfl rfl rfl rfl rfl

/-- Claim C9 amended: within one comparison-chart run every course's forecast
segment wears the same color as that course's historical line, and colors are
taken from the fixed nine-color palette cyclically indexed by the number of
traces already drawn; because forecast traces also advance that index, two
distinct selected courses can still end up with the same color in one run, as
the separate counterexample shows. -/
theorem chart_color_assignment (historical_data : List HistRow)
    (predictions : List PredRow) (selected_courses : List String) (y_column : Metric)
    (ts : List Trace)
    (h : create_comparison_chart historical_data predictions selected_courses
      y_column = .ok ts) : ChartColorSpec ts := by
  rw [create_comparison_chart] at h
  revert h
  suffices hgen : ∀ (courses : List String) (acc : List Trace), ChartColorSpec acc →
      List.foldlM (addCourseTraces historical_data predictions y_column) acc courses =
        .ok ts →
      ChartColorSpec ts by
    exact fun h => hgen selected_courses [] (fun i t hit => by simp at hit) h
  intro courses
  induction courses with
  | nil =>
    intro acc hacc hfold
    simp only [List.foldlM_nil] at hfold
    injection hfold with hfold
    subst hfold
    exact hacc
  | cons c rest ih =>
    intro acc hacc hfold
    rw [List.foldlM_cons] at hfold
    cases hstep : addCourseTraces historical_data predictions y_column acc c with
    | error e =>
      rw [hstep] at hfold
      cases hfold
    | ok acc2 =>
      rw [hstep] at hfold
      exact ih acc2 (addCourseTraces_colorSpec historical_data predictions y_column
        acc c acc2 hstep hacc) hfold

/-- Concrete instance of chart_color_assignment on the §8 example chart. -/
theorem chart_color_assignment_witness :
    create_comparison_chart exampleDf examplePreds ["C1"] Metric.colocados =
      .ok exampleTraces ∧ ChartColorSpec exampleTraces :=
  ⟨rfl, chart_color_assignment exampleDf examplePreds ["C1"] Metric.colocados
    exampleTraces rfl⟩

/-- When the course has at least one historical row, its loop iteration of the
comparison chart cannot raise. -/
theorem addCourseTraces_ok (historical_data : List HistRow) (predictions : List PredRow)
    (y_column : Metric) (traces : List Trace) (course : String)
    (hex : ∃ r ∈ historical_data, r.course_id = course) :
    ∃ ts, addCourseTraces historical_data predictions y_column traces course = .ok ts := by
  obtain ⟨r, hr, hrc⟩ := hex
  have hmem : r ∈ historical_data.filter (fun r => r.course_id == course) :=
    List.mem_filter.mpr ⟨hr, by simp [hrc]⟩
  cases hres : addCourseTraces historical_data predictions y_column traces course with
  | ok ts => exact ⟨ts, rfl⟩
  | error e =>
    exfalso
    rw [addCourseTraces] at hres
    split at hres
    · rename_i hh
      exact List.ne_nil_of_mem hmem (List.head?_eq_none_iff.mp hh)
    · split at hres
      · rename_i hm
        rw [List.max?_eq_none_iff] at hm
        exact List.ne_nil_of_mem hmem (List.map_eq_nil_iff.mp hm)
      · rename_i ly hm
        split at hres
        · rename_i hh2
          have hly : ly ∈ (historical_data.filter
              (fun r => r.course_id == course)).map (fun r => r.ano) :=
            List.max?_mem (fun x y => max_choice x y) hm
          obtain ⟨r2, hr2, hr2e⟩ := List.mem_map.mp hly
          have hmem2 : r2 ∈ (historical_data.filter
              (fun r => r.course_id == course)).filter (fun r => r.ano == ly) :=
            List.mem_filter.mpr ⟨hr2, by simp [hr2e]⟩
          exact List.ne_nil_of_mem hmem2 (List.head?_eq_none_iff.mp hh2)
        · split at hres
          · cases hres
          · cases hres

/-- When every selected course has a historical row, the whole chart loop
succeeds. -/
theorem chart_fold_ok (historical_data : List HistRow) (predictions : List PredRow)
    (y_column : Metric) :
    ∀ (courses : List String) (acc : List Trace),
      (∀ c ∈ courses, ∃ r ∈ historical_data, r.course_id = c) →
      ∃ ts, List.foldlM (addCourseTraces historical_data predictions y_column)
        acc courses = .ok ts := by
  intro courses
  induction courses with
  | nil => exact fun acc _ => ⟨acc, rfl⟩
  | cons c rest ih =>
    intro acc hex
    obtain ⟨ts1, h1⟩ := addCourseTraces_ok historical_data predictions y_column acc c
      (hex c (List.mem_cons_self _ _))
    obtain ⟨ts2, h2⟩ := ih ts1 (fun c2 hc2 => hex c2 (List.mem_cons_of_mem _ hc2))
    refine ⟨ts2, ?_⟩
    rw [List.foldlM_cons, h1]
    exact h2

/-- When every selected course has a historical row, the forecast-year rows are
built without raising. -/
theorem forecastRows_ok (df : List HistRow) (predictions : List PredRow) :
    ∀ courses : List String, (∀ c ∈ courses, ∃ r ∈ df, r.course_id = c) →
      ∃ rs, forecastRows df predictions courses = .ok rs := by
  intro courses
  induction courses with
  | nil => exact fun _ => ⟨[], rfl⟩
  | cons course rest ih =>
    intro hex
    obtain ⟨rs2, h2⟩ := ih (fun c hc => hex c (List.mem_cons_of_mem _ hc))
    cases hp : (predictions.filter (fun p => p.course_id == course)).head? with
    | none =>
      refine ⟨rs2, ?_⟩
      rw [forecastRows, hp]
      exact h2
    | some cp =>
      obtain ⟨r, hr, hrc⟩ := hex course (List.mem_cons_self _ _)
      have hmem : r ∈ df.filter (fun r => r.course_id == course) :=
        List.mem_filter.mpr ⟨hr, by simp [hrc]⟩
      cases hd : (df.filter (fun r => r.course_id == course)).head? with
      | none => exact absurd (List.head?_eq_none_iff.mp hd) (List.ne_nil_of_mem hmem)
      | some cd =>
        refine ⟨{ curso := cd.curso, ano := 2025, ocupacao := .str "Previsão"
                , nota_minima := round1 cp.nota_ultimo_colocado_prevista
                , vagas_restantes := .str "Previsão" } :: rs2, ?_⟩
        rw [forecastRows, hp, hd, h2]
        rfl

/-- When every selected course has a historical row, each yearly summary block
is built without raising. -/
theorem yearSummary_ok (df : List HistRow) (predictions : List PredRow)
    (selected_courses : List String) (y : Int)
    (hex : ∀ c ∈ selected_courses, ∃ r ∈ df, r.course_id = c) :
    ∃ b, yearSummary df predictions selected_courses y = .ok b := by
  by_cases hy : y = 2025
  · subst hy
    obtain ⟨rs, h⟩ := forecastRows_ok df predictions selected_courses hex
    refine ⟨rs, ?_⟩
    rw [yearSummary, if_pos (by decide)]
    exact h
  · exact ⟨_, by rw [yearSummary, if_neg (by simpa using hy)]⟩

/-- When every selected course has a historical row, the whole year loop of the
summary succeeds. -/
theorem summaryBlocks_ok (df : List HistRow) (predictions : List PredRow)
    (selected_courses : List String)
    (hex : ∀ c ∈ selected_courses, ∃ r ∈ df, r.course_id = c) :
    ∀ years : List Int,
      ∃ bs, summaryBlocks df predictions selected_courses years = .ok bs := by
  intro years
  induction years with
  | nil => exact ⟨[], rfl⟩
  | cons y rest ih =>
    obtain ⟨bs, h⟩ := ih
    obtain ⟨b, hb⟩ := yearSummary_ok df predictions selected_courses y hex
    refine ⟨b :: bs, ?_⟩
    rw [summaryBlocks, hb, h]
    rfl

/-- Claim C1 amended: the empty-comparison-set and empty-year cases are
detected and turned into user-facing notices, and whenever every selected
course identifier has at least one historical row the whole comparison pipeline
(both charts and the summary) completes without raising; a selected course
identifier with no historical rows, however, makes the chart (and the 2025
summary) raise IndexError, as the separate counterexample shows. -/
theorem comparison_pipeline_no_crash (df : List HistRow) (predictions : List PredRow)
    (selected_courses : List String) (selected_years : List Int)
    (hex : ∀ c ∈ selected_courses, ∃ r ∈ df, r.course_id = c) :
    (∃ out, create_course_comparison_view df selected_courses predictions
      selected_years = .ok out) ∧
    (df.filter (fun r => selected_courses.contains r.course_id) = [] →
      create_course_comparison_view df selected_courses predictions selected_years =
        .ok .noData) ∧
    (selected_years = [] →
      df.filter (fun r => selected_courses.contains r.course_id) ≠ [] →
      create_course_comparison_view df selected_courses predictions selected_years =
        .ok .promptYears) := by
  have hex2 : ∀ c ∈ selected_courses,
      ∃ r ∈ df.filter (fun r => selected_courses.contains r.course_id),
        r.course_id = c := by
    intro c hc
    obtain ⟨r, hr, hrc⟩ := hex c hc
    refine ⟨r, List.mem_filter.mpr ⟨hr, ?_⟩, hrc⟩
    simpa [hrc] using hc
  by_cases hhist : df.filter (fun r => selected_courses.contains r.course_id) = []
  · have hview : create_course_comparison_view df selected_courses predictions
        selected_years = .ok .noData := by
      simp only [create_course_comparison_view, hhist, List.isEmpty_nil, if_true]
    exact ⟨⟨.noData, hview⟩, fun _ => hview, fun _ hne => absurd hhist hne⟩
  · have hemp : (df.filter (fun r => selected_courses.contains r.course_id)).isEmpty =
        false := by
      simpa [List.isEmpty_iff] using hhist
    obtain ⟨ts1, h1⟩ := chart_fold_ok
      (df.filter (fun r => selected_courses.contains r.course_id)) predictions
      .colocados selected_courses [] hex2
    obtain ⟨ts2, h2⟩ := chart_fold_ok
      (df.filter (fun r => selected_courses.contains r.course_id)) predictions
      .nota_ultimo_colocado selected_courses [] hex2
    have h1c : create_comparison_chart
        (df.filter (fun r => selected_courses.contains r.course_id)) predictions
        selected_courses .colocados = .ok ts1 := by
      rw [create_comparison_chart]
      exact h1
    have h2c : create_comparison_chart
        (df.filter (fun r => selected_courses.contains r.course_id)) predictions
        selected_courses .nota_ultimo_colocado = .ok ts2 := by
      rw [create_comparison_chart]
      exact h2
    by_cases hyrs : selected_years = []
    · have hview : create_course_comparison_view df selected_courses predictions
          selected_years = .ok .promptYears := by
        simp only [create_course_comparison_view, hemp, Bool.false_eq_true, if_false,
          h1c, h2c, Except.bind, hyrs, List.isEmpty_nil, if_true]
      exact ⟨⟨.promptYears, hview⟩, fun hq => absurd hq hhist, fun _ _ => hview⟩
    · obtain ⟨bs, hbs⟩ := summaryBlocks_ok df predictions selected_courses hex
        selected_years
      have hsum : create_comparison_summary df predictions selected_courses
          selected_years = .ok (if bs.isEmpty then none else some bs.flatten) := by
        rw [create_comparison_summary, hbs]
        rfl
      have hyemp : selected_years.isEmpty = false := by
        simpa [List.isEmpty_iff] using hyrs
      have hview : create_course_comparison_view df selected_courses predictions
          selected_years =
          .ok (.view ts1 ts2 (if bs.isEmpty then none else some bs.flatten)) := by
        simp only [create_course_comparison_view, hemp, Bool.false_eq_true, if_false,
          h1c, h2c, Except.bind, hyemp, hsum, Except.map]
      exact ⟨⟨_, hview⟩, fun hq => absurd hq hhist, fun hq => absurd hq hyrs⟩

/-- Counterexample to claim C1 as stated: with courses A and B selected while
only A has historical rows, the comparison view raises IndexError while drawing
the first chart instead of producing a user-facing message. -/
theorem comparison_missing_course_crash :
    create_course_comparison_view soloDf ["A", "B"] [] [2024] =
      .error "IndexError: single positional indexer is out-of-bounds" := rfl

/-- Concrete instance of comparison_pipeline_no_crash: with the one existing
course selected, the comparison view renders without raising. -/
theorem comparison_pipeline_no_crash_witness :
    (∀ c ∈ ["A"], ∃ r ∈ soloDf, r.course_id = c) ∧
    (∃ out, create_course_comparison_view soloDf ["A"] [] [2024] = .ok out) := by
  have hex : ∀ c ∈ ["A"], ∃ r ∈ soloDf, r.course_id = c := by decide
  exact ⟨hex, (comparison_pipeline_no_crash soloDf [] ["A"] [2024] hex).1⟩

/-- In a list sorted ascending by year, every year is at most the last row's. -/
theorem sorted_anoLe_le_getLast :
    ∀ (l : List HistRow), l.Sorted anoLe → ∀ (hne : l ≠ []) (r : HistRow),
      r ∈ l → r.ano ≤ (l.getLast hne).ano := by
  intro l
  induction l with
  | nil => intro _ hne; exact absurd rfl hne
  | cons a rest ih =>
    intro hs hne r hr
    rw [List.sorted_cons] at hs
    obtain ⟨ha, hs2⟩ := hs
    rcases List.mem_cons.mp hr with rfl | hr2
    · cases rest with
      | nil => simp [List.getLast_singleton]
      | cons b rest2 =>
        rw [List.getLast_cons (by simp)]
        exact ha _ (List.getLast_mem _)
    · cases rest with
      | nil => cases hr2
      | cons b rest2 =>
        rw [List.getLast_cons (by simp)]
        exact ih hs2 (by simp) r hr2

/-- Claim C6: on a nonempty filtered course series the view reports mean
occupancy rate times 100 and mean admission grade, takes last grade and last
placed from the last row after the ascending-by-year sort (a row of maximal
year), omits both forecast metrics when no prediction record exists, and on
the §8 example data over 2020-2024 reports mean occupancy 60 percent, last
placed 14 and forecast placed 15. -/
theorem single_course_metrics_spec (df : List HistRow) (predictions : List PredRow)
    (c : String) (y1 y2 : Int) (h : filterCourseYears df c y1 y2 ≠ []) :
    (∃ m, create_metric_columns (filterCourseYears df c y1 y2) predictions c =
        some m ∧
      m.avg_occupancy = (((filterCourseYears df c y1 y2).map
        (fun r => r.taxa_ocupacao)).sum /
        ((filterCourseYears df c y1 y2).length : ℚ)) * 100 ∧
      m.avg_grade = ((filterCourseYears df c y1 y2).map
        (fun r => r.nota_ultimo_colocado)).sum /
        ((filterCourseYears df c y1 y2).length : ℚ) ∧
      m.last_grade = ((filterCourseYears df c y1 y2).getLast h).nota_ultimo_colocado ∧
      m.last_placed = ((filterCourseYears df c y1 y2).getLast h).colocados ∧
      m.recent_year = ((filterCourseYears df c y1 y2).getLast h).ano ∧
      (∀ r ∈ filterCourseYears df c y1 y2, r.ano ≤ m.recent_year) ∧
      (predictions.filter (fun p => p.course_id == c) = [] →
        m.forecast_grade = none ∧ m.forecast_placed = none)) ∧
    (create_metric_columns (filterCourseYears exampleDf "C1" 2020 2024) examplePreds
        "C1").map (fun m => (m.avg_occupancy, m.last_placed, m.forecast_placed,
          m.avg_grade, m.forecast_grade)) =
      some (60, 14, some 15, 12, some (142/10)) := by
  constructor
  · have hgl : (filterCourseYears df c y1 y2).getLast? =
        some ((filterCourseYears df c y1 y2).getLast h) :=
      List.getLast?_eq_getLast _ h
    cases hmc : create_metric_columns (filterCourseYears df c y1 y2) predictions c with
    | none =>
      exfalso
      simp only [create_metric_columns, hgl] at hmc
      exact Option.noConfusion hmc
    | some m =>
      have hmc2 := hmc
      simp only [create_metric_columns, hgl] at hmc2
      injection hmc2 with hmc2
      subst hmc2
      refine ⟨_, rfl, rfl, rfl, rfl, rfl, rfl, ?_, ?_⟩
      · intro r hr
        exact sorted_anoLe_le_getLast _ (List.sorted_insertionSort _ _) h r hr
      · intro hpred
        constructor <;> simp [hpred]
  · have hfe : filterCourseYears exampleDf "C1" 2020 2024 = exampleDf := rfl
    rw [hfe]
    have h0 : create_metric_columns exampleDf examplePreds "C1" =
        some { avg_occupancy := 60, avg_grade := 12, recent_year := 2024
             , last_grade := 14, last_placed := 14, forecast_grade := some (142/10)
             , forecast_placed := some 15 } := by
      simp only [create_metric_columns, exampleDf, examplePreds]
      norm_num [pyInt]
    rw [h0]
    rfl

/-- Concrete instance of single_course_metrics_spec on the §8 example data. -/
theorem single_course_metrics_spec_witness :
    filterCourseYears exampleDf "C1" 2020 2024 ≠ [] ∧
    (create_metric_columns (filterCourseYears exampleDf "C1" 2020 2024) examplePreds
        "C1").map (fun m => (m.avg_occupancy, m.last_placed, m.forecast_placed,
          m.avg_grade, m.forecast_grade)) =
      some (60, 14, some 15, 12, some (142/10)) := by
  have hne : filterCourseYears exampleDf "C1" 2020 2024 ≠ [] := by decide
  exact ⟨hne,
    (single_course_metrics_spec exampleDf examplePreds "C1" 2020 2024 hne).2⟩

/-- Claim C10: both the single-course detail table and the non-forecast-year
comparison summary produce the occupancy string by rounding occupancy times 100
half to even before integer conversion and the percent suffix: an occupancy of
0.625 displays as 62 percent and 0.635 as 64 percent, unlike round-half-up. -/
theorem occupancy_rounding_half_even (df : List HistRow) (predictions : List PredRow)
    (selected_courses : List String) (y : Int) (hy : y ≠ 2025) :
    ((create_detailed_table df).map (fun d => d.taxa_ocupacao) =
      df.map (fun r => fmtPercent r.taxa_ocupacao)) ∧
    (∀ b, yearSummary df predictions selected_courses y = .ok b →
      ∀ row ∈ b, ∃ r ∈ df, row.ocupacao = .str (fmtPercent r.taxa_ocupacao)) ∧
    fmtPercent (5/8) = "62%" ∧ fmtPercent (127/200) = "64%" ∧
    roundHalfEven ((5/8 : ℚ) * 100) ≠ roundHalfUp ((5/8 : ℚ) * 100) := by
  refine ⟨?_, ?_, ?_, ?_, ?_⟩
  · simp [create_detailed_table, List.map_map, Function.comp]
  · intro b hb row hrow
    rw [yearSummary, if_neg (by simpa using hy)] at hb
    injection hb with hb
    subst hb
    obtain ⟨r, hr, hrow⟩ := List.mem_map.mp hrow
    refine ⟨r, List.mem_of_mem_filter hr, ?_⟩
    rw [← hrow]
  · have h1 : roundHalfEven ((5/8 : ℚ) * 100) = 62 := by
      norm_num [roundHalfEven]
    rw [fmtPercent, h1]
    rfl
  · have h2 : roundHalfEven ((127/200 : ℚ) * 100) = 64 := by
      norm_num [roundHalfEven]
    rw [fmtPercent, h2]
    rfl
  · have h1 : roundHalfEven ((5/8 : ℚ) * 100) = 62 := by
      norm_num [roundHalfEven]
    have h3 : roundHalfUp ((5/8 : ℚ) * 100) = 63 := by
      norm_num [roundHalfUp]
    rw [h1, h3]
    decide

/-- Concrete instance of occupancy_rounding_half_even at year 2024. -/
theorem occupancy_rounding_half_even_witness :
    (2024 : Int) ≠ 2025 ∧ fmtPercent (5/8) = "62%" ∧ fmtPercent (127/200) = "64%" := by
  refine ⟨by decide, ?_, ?_⟩
  · exact (occupancy_rounding_half_even [] [] [] 2024 (by decide)).2.2.1
  · exact (occupancy_rounding_half_even [] [] [] 2024 (by decide)).2.2.2.1
